import Mathlib

/-!
Verification of the pose-driven form-validation pipeline of the plank-challenge
repository.  The definitions below are shallow embeddings of:

* `smoothLandmarks`            — src/hooks/usePoseDetection.ts, lines 16-39
* `calculateAngle`             — src/lib/poseDetection.ts (src/unnamed/part_008), lines 52-84
* `calculateColinearity`       — same file, lines 94-117
* `checkSideVisibility` and `areLandmarksVisible` — same file, lines 123-170
* `detectPlankPosition`        — same file, lines 179-392
* the stability tracker inside `detectPose` — src/hooks/usePoseDetection.ts, lines 172-217
  together with its catch block, lines 258-272, and `reset`, lines 276-297
* the adaptive-FPS block inside `detectPose` — same file, lines 219-256
* `loadPoseLandmarker`         — src/lib/mediapipeLoader.ts, lines 18-71

JavaScript doubles are modelled as real numbers (for the geometric code, which
uses `Math.sqrt`/`Math.acos`) and as rationals (for the adaptive sampler, which
is exact arithmetic on the values the claims mention); counters are naturals.
-/

namespace Plank

/-- One MediaPipe landmark: normalized image coordinates plus a visibility
confidence.  Mirrors `NormalizedLandmark` as used by the source. -/
@[ext]
structure Landmark where
  x : ℝ
  y : ℝ
  z : ℝ
  visibility : ℝ

/-- The EMA blend of one landmark pair, from the body of the `map` callback in
`smoothLandmarks` (usePoseDetection.ts lines 32-37): coordinates are blended
with factor `alpha`, visibility is copied from `current` unsmoothed. -/
def smoothOne (alpha : ℝ) (current previous : Landmark) : Landmark :=
  { x := alpha * current.x + (1 - alpha) * previous.x
    y := alpha * current.y + (1 - alpha) * previous.y
    z := alpha * current.z + (1 - alpha) * previous.z
    visibility := current.visibility }

/-- Index-aligned traversal of `currentLandmarks.map((current, index) => ...)`:
when `previousLandmarks[index]` is missing the current landmark is returned
unchanged (usePoseDetection.ts lines 25-29). -/
def smoothZip (alpha : ℝ) : List Landmark → List Landmark → List Landmark
  | [], _ => []
  | c :: cs, [] => c :: smoothZip alpha cs []
  | c :: cs, p :: ps => smoothOne alpha c p :: smoothZip alpha cs ps

/-- `smoothLandmarks` from usePoseDetection.ts lines 16-39.  A `null` previous
set (cold start) returns the current set unchanged. -/
def smoothLandmarks (currentLandmarks : List Landmark)
    (previousLandmarks : Option (List Landmark)) (alpha : ℝ) : List Landmark :=
  match previousLandmarks with
  | none => currentLandmarks
  | some prev => smoothZip alpha currentLandmarks prev

/-- `calculateAngle` from poseDetection.ts lines 52-84: the angle at vertex `b`
between `a` and `c`, via the clamped arccosine of the normalized dot product,
in degrees.  Zero when either vector has zero magnitude. -/
noncomputable def calculateAngle (a b c : Landmark) : ℝ :=
  let bax := a.x - b.x
  let bay := a.y - b.y
  let bcx := c.x - b.x
  let bcy := c.y - b.y
  let dotProduct := bax * bcx + bay * bcy
  let magnitudeBA := Real.sqrt (bax * bax + bay * bay)
  let magnitudeBC := Real.sqrt (bcx * bcx + bcy * bcy)
  if magnitudeBA = 0 ∨ magnitudeBC = 0 then 0
  else
    let cosAngle := dotProduct / (magnitudeBA * magnitudeBC)
    let clampedCosAngle := max (-1) (min 1 cosAngle)
    Real.arccos clampedCosAngle * 180 / Real.pi

/-- `calculateColinearity` from poseDetection.ts lines 94-117: normalized 2D
cross-product magnitude, scaled by 2 and capped at 1; returns 1 when the
endpoints coincide. -/
noncomputable def calculateColinearity (a b c : Landmark) : ℝ :=
  let dx1 := b.x - a.x
  let dy1 := b.y - a.y
  let dx2 := c.x - b.x
  let dy2 := c.y - b.y
  let crossProduct := |dx1 * dy2 - dy1 * dx2|
  let totalDistance := Real.sqrt ((c.x - a.x) ^ 2 + (c.y - a.y) ^ 2)
  if totalDistance = 0 then 1
  else min 1 (crossProduct / totalDistance * 2)

/-! MediaPipe pose landmark indices (poseDetection.ts lines 29-43). -/

def NOSE : ℕ := 0
def LEFT_SHOULDER : ℕ := 11
def RIGHT_SHOULDER : ℕ := 12
def LEFT_ELBOW : ℕ := 13
def RIGHT_ELBOW : ℕ := 14
def LEFT_WRIST : ℕ := 15
def RIGHT_WRIST : ℕ := 16
def LEFT_HIP : ℕ := 23
def RIGHT_HIP : ℕ := 24
def LEFT_KNEE : ℕ := 25
def RIGHT_KNEE : ℕ := 26
def LEFT_ANKLE : ℕ := 27
def RIGHT_ANKLE : ℕ := 28

/-- The truthiness test `landmarks[idx] && landmarks[idx].visibility &&
landmarks[idx].visibility >= minVisibility` (poseDetection.ts lines 141-147
and 161-163): the landmark exists, its visibility is not the falsy 0, and it
meets the threshold. -/
def landmarkOk (lms : List Landmark) (i : ℕ) (minVis : ℝ) : Prop :=
  match lms[i]? with
  | none => False
  | some l => l.visibility ≠ 0 ∧ minVis ≤ l.visibility

/-- Left half of `checkSideVisibility` (poseDetection.ts lines 127-143). -/
def leftSideVisible (lms : List Landmark) (minVis : ℝ) : Prop :=
  landmarkOk lms LEFT_SHOULDER minVis ∧ landmarkOk lms LEFT_HIP minVis ∧
    landmarkOk lms LEFT_KNEE minVis ∧ landmarkOk lms LEFT_ANKLE minVis

/-- Right half of `checkSideVisibility` (poseDetection.ts lines 134-147). -/
def rightSideVisible (lms : List Landmark) (minVis : ℝ) : Prop :=
  landmarkOk lms RIGHT_SHOULDER minVis ∧ landmarkOk lms RIGHT_HIP minVis ∧
    landmarkOk lms RIGHT_KNEE minVis ∧ landmarkOk lms RIGHT_ANKLE minVis

/-- `areLandmarksVisible` (poseDetection.ts lines 156-170): the nose must be
visible and at least one full side chain must be visible. -/
def areLandmarksVisible (lms : List Landmark) (minVis : ℝ) : Prop :=
  landmarkOk lms NOSE minVis ∧ (leftSideVisible lms minVis ∨ rightSideVisible lms minVis)

section Scorer

open scoped Classical

/-- Total lookup of `landmarks[i]`.  The source indexes the landmark array
directly; the spec (section 7c) requires missing indices to be treated as
zero-visibility landmarks rather than out-of-bounds, which the default does. -/
def lmAt (lms : List Landmark) (i : ℕ) : Landmark :=
  (lms[i]?).getD ⟨0, 0, 0, 0⟩

/-- `bodyAngle` of `detectPlankPosition` (poseDetection.ts lines 219-238):
shoulder-hip-ankle angle, averaged over both sides when both are visible. -/
noncomputable def bodyAngleOf (lms : List Landmark) : ℝ :=
  if leftSideVisible lms 0.3 ∧ rightSideVisible lms 0.3 then
    (calculateAngle (lmAt lms LEFT_SHOULDER) (lmAt lms LEFT_HIP) (lmAt lms LEFT_ANKLE) +
      calculateAngle (lmAt lms RIGHT_SHOULDER) (lmAt lms RIGHT_HIP) (lmAt lms RIGHT_ANKLE)) / 2
  else if leftSideVisible lms 0.3 then
    calculateAngle (lmAt lms LEFT_SHOULDER) (lmAt lms LEFT_HIP) (lmAt lms LEFT_ANKLE)
  else
    calculateAngle (lmAt lms RIGHT_SHOULDER) (lmAt lms RIGHT_HIP) (lmAt lms RIGHT_ANKLE)

/-- `colinearityScore` of `detectPlankPosition` (poseDetection.ts lines
222-238), with the same side selection as the body angle. -/
noncomputable def colinearityScoreOf (lms : List Landmark) : ℝ :=
  if leftSideVisible lms 0.3 ∧ rightSideVisible lms 0.3 then
    (calculateColinearity (lmAt lms LEFT_SHOULDER) (lmAt lms LEFT_HIP) (lmAt lms LEFT_ANKLE) +
      calculateColinearity (lmAt lms RIGHT_SHOULDER) (lmAt lms RIGHT_HIP) (lmAt lms RIGHT_ANKLE)) / 2
  else if leftSideVisible lms 0.3 then
    calculateColinearity (lmAt lms LEFT_SHOULDER) (lmAt lms LEFT_HIP) (lmAt lms LEFT_ANKLE)
  else
    calculateColinearity (lmAt lms RIGHT_SHOULDER) (lmAt lms RIGHT_HIP) (lmAt lms RIGHT_ANKLE)

/-- `kneeAngle` of `detectPlankPosition` (poseDetection.ts lines 264-273). -/
noncomputable def kneeAngleOf (lms : List Landmark) : ℝ :=
  if leftSideVisible lms 0.3 ∧ rightSideVisible lms 0.3 then
    (calculateAngle (lmAt lms LEFT_HIP) (lmAt lms LEFT_KNEE) (lmAt lms LEFT_ANKLE) +
      calculateAngle (lmAt lms RIGHT_HIP) (lmAt lms RIGHT_KNEE) (lmAt lms RIGHT_ANKLE)) / 2
  else if leftSideVisible lms 0.3 then
    calculateAngle (lmAt lms LEFT_HIP) (lmAt lms LEFT_KNEE) (lmAt lms LEFT_ANKLE)
  else
    calculateAngle (lmAt lms RIGHT_HIP) (lmAt lms RIGHT_KNEE) (lmAt lms RIGHT_ANKLE)

/-- `elbowAngle` of `detectPlankPosition` (poseDetection.ts lines 285-302). -/
noncomputable def elbowAngleOf (lms : List Landmark) : ℝ :=
  if leftSideVisible lms 0.3 ∧ rightSideVisible lms 0.3 then
    (calculateAngle (lmAt lms LEFT_SHOULDER) (lmAt lms LEFT_ELBOW) (lmAt lms LEFT_WRIST) +
      calculateAngle (lmAt lms RIGHT_SHOULDER) (lmAt lms RIGHT_ELBOW) (lmAt lms RIGHT_WRIST)) / 2
  else if leftSideVisible lms 0.3 then
    calculateAngle (lmAt lms LEFT_SHOULDER) (lmAt lms LEFT_ELBOW) (lmAt lms LEFT_WRIST)
  else
    calculateAngle (lmAt lms RIGHT_SHOULDER) (lmAt lms RIGHT_ELBOW) (lmAt lms RIGHT_WRIST)

/-- `elbowShoulderDistance` of `detectPlankPosition` (poseDetection.ts lines
286-302): horizontal elbow-to-shoulder offset. -/
noncomputable def elbowShoulderDistanceOf (lms : List Landmark) : ℝ :=
  if leftSideVisible lms 0.3 ∧ rightSideVisible lms 0.3 then
    (|(lmAt lms LEFT_ELBOW).x - (lmAt lms LEFT_SHOULDER).x| +
      |(lmAt lms RIGHT_ELBOW).x - (lmAt lms RIGHT_SHOULDER).x|) / 2
  else if leftSideVisible lms 0.3 then
    |(lmAt lms LEFT_ELBOW).x - (lmAt lms LEFT_SHOULDER).x|
  else
    |(lmAt lms RIGHT_ELBOW).x - (lmAt lms RIGHT_SHOULDER).x|

/-- `shoulderNoseDistance` of `detectPlankPosition` (poseDetection.ts lines
323-332): vertical shoulder-to-nose offset. -/
noncomputable def shoulderNoseDistanceOf (lms : List Landmark) : ℝ :=
  if leftSideVisible lms 0.3 ∧ rightSideVisible lms 0.3 then
    (|(lmAt lms LEFT_SHOULDER).y - (lmAt lms NOSE).y| +
      |(lmAt lms RIGHT_SHOULDER).y - (lmAt lms NOSE).y|) / 2
  else if leftSideVisible lms 0.3 then
    |(lmAt lms LEFT_SHOULDER).y - (lmAt lms NOSE).y|
  else
    |(lmAt lms RIGHT_SHOULDER).y - (lmAt lms NOSE).y|

/-- `shoulderHipLevelness` of `detectPlankPosition` (poseDetection.ts lines
341-350): vertical shoulder-to-hip offset. -/
noncomputable def shoulderHipLevelnessOf (lms : List Landmark) : ℝ :=
  if leftSideVisible lms 0.3 ∧ rightSideVisible lms 0.3 then
    (|(lmAt lms LEFT_SHOULDER).y - (lmAt lms LEFT_HIP).y| +
      |(lmAt lms RIGHT_SHOULDER).y - (lmAt lms RIGHT_HIP).y|) / 2
  else if leftSideVisible lms 0.3 then
    |(lmAt lms LEFT_SHOULDER).y - (lmAt lms LEFT_HIP).y|
  else
    |(lmAt lms RIGHT_SHOULDER).y - (lmAt lms RIGHT_HIP).y|

/-- `avgBodyY` of `detectPlankPosition` (poseDetection.ts lines 359-366):
average vertical position of the visible shoulder/hip/ankle landmarks. -/
noncomputable def avgBodyYOf (lms : List Landmark) : ℝ :=
  if leftSideVisible lms 0.3 ∧ rightSideVisible lms 0.3 then
    ((lmAt lms LEFT_SHOULDER).y + (lmAt lms RIGHT_SHOULDER).y + (lmAt lms LEFT_HIP).y +
      (lmAt lms RIGHT_HIP).y + (lmAt lms LEFT_ANKLE).y + (lmAt lms RIGHT_ANKLE).y) / 6
  else if leftSideVisible lms 0.3 then
    ((lmAt lms LEFT_SHOULDER).y + (lmAt lms LEFT_HIP).y + (lmAt lms LEFT_ANKLE).y) / 3
  else
    ((lmAt lms RIGHT_SHOULDER).y + (lmAt lms RIGHT_HIP).y + (lmAt lms RIGHT_ANKLE).y) / 3

/-- Co-linearity criterion (poseDetection.ts lines 242-248): penalty and
feedback pushed for this criterion. -/
noncomputable def colinearityCheck (score : ℝ) : ℤ × List String :=
  if score > 0.25 then (30, ["Keep your core tight - straighten your body"])
  else if score > 0.15 then (15, ["Minor body curve - engage core more"])
  else (0, [])

/-- Body-alignment criterion (poseDetection.ts lines 251-260). -/
noncomputable def alignmentCheck (bodyAngle : ℝ) : ℤ × List String :=
  if bodyAngle < 155 then (35, ["Lift your hips higher"])
  else if bodyAngle > 190 then (35, ["Lower your hips - avoid sagging"])
  else if bodyAngle < 165 ∨ bodyAngle > 180 then (20, ["Adjust hips for straighter alignment"])
  else (0, [])

/-- Leg-straightness criterion (poseDetection.ts lines 275-281). -/
noncomputable def kneeCheck (kneeAngle : ℝ) : ℤ × List String :=
  if kneeAngle < 160 then (25, ["Straighten your legs completely"])
  else if kneeAngle < 170 then (10, ["Legs could be straighter"])
  else (0, [])

/-- Arm-style criterion (poseDetection.ts lines 306-312): a forearm plank has
elbow angle below 130, a straight-arm plank above 145; the ambiguous band in
between is penalized. -/
noncomputable def armStyleCheck (elbowAngle : ℝ) : ℤ × List String :=
  if ¬ (elbowAngle < 130) ∧ ¬ (elbowAngle > 145) then
    (20, ["Choose forearm or straight-arm plank"])
  else (0, [])

/-- Arm-placement criterion (poseDetection.ts lines 316-319). -/
noncomputable def armPlacementCheck (elbowShoulderDistance : ℝ) : ℤ × List String :=
  if elbowShoulderDistance > 0.15 then (15, ["Position arms under shoulders"]) else (0, [])

/-- Head-position criterion (poseDetection.ts lines 334-337). -/
noncomputable def headCheck (shoulderNoseDistance : ℝ) : ℤ × List String :=
  if shoulderNoseDistance > 0.15 then (10, ["Keep head in neutral position"]) else (0, [])

/-- Body-levelness criterion (poseDetection.ts lines 352-355). -/
noncomputable def levelnessCheck (shoulderHipLevelness : ℝ) : ℤ × List String :=
  if shoulderHipLevelness > 0.15 then (15, ["Keep body parallel to ground"]) else (0, [])

/-- Framing criterion (poseDetection.ts lines 368-371). -/
noncomputable def framingCheck (avgBodyY : ℝ) : ℤ × List String :=
  if avgBodyY < 0.25 ∨ avgBodyY > 0.75 then (10, ["Center yourself in frame"]) else (0, [])

/-- The positive-feedback `unshift` calls (poseDetection.ts lines 378-384). -/
noncomputable def positiveFeedback (isPlank : Bool) (confidence : ℤ)
    (feedback : List String) : List String :=
  if isPlank ∧ 85 ≤ confidence then "Perfect plank form! 💪" :: feedback
  else if isPlank ∧ 70 ≤ confidence then "Good plank position - keep it up!" :: feedback
  else if isPlank = true then "Plank detected - maintain form" :: feedback
  else feedback

/-- `{ isPlank, confidence, feedback }` as computed by the main path of
`detectPlankPosition` from the eight measured quantities (poseDetection.ts
lines 190-391): confidence starts at 100, each criterion subtracts its
penalty and appends its feedback in source order; the final judgment is
`confidence >= 60 && feedback.length <= 3`. -/
noncomputable def scorePlank (colin bodyAngle kneeAngle elbowAngle elbowShoulderDistance
    shoulderNoseDistance shoulderHipLevelness avgBodyY : ℝ) : Bool × ℤ × List String :=
  let c1 := colinearityCheck colin
  let c2 := alignmentCheck bodyAngle
  let c3 := kneeCheck kneeAngle
  let c4 := armStyleCheck elbowAngle
  let c5 := armPlacementCheck elbowShoulderDistance
  let c6 := headCheck shoulderNoseDistance
  let c7 := levelnessCheck shoulderHipLevelness
  let c8 := framingCheck avgBodyY
  let feedback := c1.2 ++ c2.2 ++ c3.2 ++ c4.2 ++ c5.2 ++ c6.2 ++ c7.2 ++ c8.2
  let confidence : ℤ := 100 - c1.1 - c2.1 - c3.1 - c4.1 - c5.1 - c6.1 - c7.1 - c8.1
  let isPlank : Bool := decide (60 ≤ confidence) && decide (feedback.length ≤ 3)
  (isPlank, confidence, positiveFeedback isPlank confidence feedback)

/-- `PlankDetectionResult` (poseDetection.ts lines 9-14). -/
structure PlankDetectionResult where
  isPlank : Bool
  confidence : ℤ
  feedback : List String
  landmarks : Option (List Landmark) := none

/-- `detectPlankPosition` (poseDetection.ts lines 179-392).  When the
visibility precondition fails it returns early with zero confidence and a
single feedback message; otherwise it scores the eight geometric measures and
returns the clamped confidence `Math.max(0, confidence)`. -/
noncomputable def detectPlankPosition (landmarks : List Landmark) : PlankDetectionResult :=
  if ¬ areLandmarksVisible landmarks 0.3 then
    { isPlank := false
      confidence := 0
      feedback := ["Position yourself sideways to camera. Show full body from head to feet."]
      landmarks := some landmarks }
  else
    let r := scorePlank (colinearityScoreOf landmarks) (bodyAngleOf landmarks)
      (kneeAngleOf landmarks) (elbowAngleOf landmarks) (elbowShoulderDistanceOf landmarks)
      (shoulderNoseDistanceOf landmarks) (shoulderHipLevelnessOf landmarks) (avgBodyYOf landmarks)
    { isPlank := r.1
      confidence := max 0 r.2.1
      feedback := r.2.2
      landmarks := some landmarks }

end Scorer

/-! ## A concrete landmark set with body angle exactly 140 degrees

The left side chain is fully visible, the right side is not, so the scorer
uses the left side only.  The shoulder sits at angle `7π/9` (140 degrees)
from the hip relative to the hip-to-ankle direction, the hip-ankle segment is
short (0.05) so the co-linearity score stays small, legs and arms are
straight, and every other criterion is ideal. -/

noncomputable def sagHip : Landmark := ⟨0.5, 0.55, 0, 1⟩

noncomputable def sagShoulder : Landmark :=
  ⟨0.5 + 0.2 * Real.cos (7 * Real.pi / 9), 0.55 + 0.2 * Real.sin (7 * Real.pi / 9), 0, 1⟩

noncomputable def sagAnkle : Landmark := ⟨0.55, 0.55, 0, 1⟩

noncomputable def sagKnee : Landmark := ⟨0.525, 0.55, 0, 1⟩

noncomputable def sagNose : Landmark :=
  ⟨0.35, 0.55 + 0.2 * Real.sin (7 * Real.pi / 9), 0, 1⟩

noncomputable def sagElbow : Landmark :=
  ⟨0.6 + 0.2 * Real.cos (7 * Real.pi / 9), 0.55 + 0.2 * Real.sin (7 * Real.pi / 9), 0, 1⟩

noncomputable def sagWrist : Landmark :=
  ⟨0.7 + 0.2 * Real.cos (7 * Real.pi / 9), 0.55 + 0.2 * Real.sin (7 * Real.pi / 9), 0, 1⟩

/-- An absent/invisible landmark (visibility 0). -/
def dummyLm : Landmark := ⟨0, 0, 0, 0⟩

/-- The landmark array: nose at 0, left shoulder/elbow/wrist at 11/13/15,
left hip/knee/ankle at 23/25/27, everything else invisible. -/
noncomputable def sag140Landmarks : List Landmark :=
  [sagNose, dummyLm, dummyLm, dummyLm, dummyLm, dummyLm, dummyLm, dummyLm, dummyLm, dummyLm,
    dummyLm, sagShoulder, dummyLm, sagElbow, dummyLm, sagWrist, dummyLm, dummyLm, dummyLm,
    dummyLm, dummyLm, dummyLm, dummyLm, sagHip, dummyLm, sagKnee, dummyLm, sagAnkle, dummyLm]

/-! ## Stability tracker (detectPose, usePoseDetection.ts lines 134-273) -/

/-- The mutable per-session counters of `detectPose`
(`plankDetectedCountRef`, `plankLostCountRef`, `isPlankActiveRef`). -/
structure DetectionState where
  plankDetectedCount : ℕ
  plankLostCount : ℕ
  isPlankActive : Bool
deriving DecidableEq, Repr

/-- What one processed frame looks like to the stability logic: a person was
detected and judged by `detectPlankPosition` (`frame isPlank`), no person was
detected (usePoseDetection.ts lines 198-217), or the detection call threw
(`errorFrame`, with MediaPipe error code 5 or not; lines 258-272). -/
inductive FrameInput where
  | frame (isPlank : Bool)
  | noPerson
  | errorFrame (code5 : Bool)
deriving DecidableEq, Repr

/-- The callbacks fired while processing one frame: `onPlankDetected` and
`onPlankLost`. -/
structure FrameEvents where
  plankDetected : Bool
  plankLost : Bool
deriving DecidableEq, Repr

/-- One step of the stability state machine inside `detectPose`
(usePoseDetection.ts lines 172-217 for detected frames, 198-217 for the
no-person branch, 258-272 for the catch block).  Returns the new counters,
the events fired, and the error message set by the catch block (if any).
The catch block only logs and sets the error string: the counters and the
active flag are left untouched and the function returns normally, so a
throwing detection call never terminates the session. -/
def detectPoseStep (stabilityFrames gracePeriodFrames : ℕ) (s : DetectionState)
    (input : FrameInput) : DetectionState × FrameEvents × Option String :=
  match input with
  | .frame true =>
    let detected := s.plankDetectedCount + 1
    if ¬ s.isPlankActive ∧ stabilityFrames ≤ detected then
      (⟨detected, 0, true⟩, ⟨true, false⟩, none)
    else
      (⟨detected, 0, s.isPlankActive⟩, ⟨false, false⟩, none)
  | .frame false =>
    let lost := s.plankLostCount + 1
    if s.isPlankActive ∧ gracePeriodFrames ≤ lost then
      (⟨0, lost, false⟩, ⟨false, true⟩, none)
    else
      (⟨0, lost, s.isPlankActive⟩, ⟨false, false⟩, none)
  | .noPerson =>
    let lost := s.plankLostCount + 1
    if s.isPlankActive ∧ gracePeriodFrames ≤ lost then
      (⟨0, lost, false⟩, ⟨false, true⟩, none)
    else
      (⟨0, lost, s.isPlankActive⟩, ⟨false, false⟩, none)
  | .errorFrame code5 =>
    (s, ⟨false, false⟩,
      if code5 then some "Detection error - try refreshing if issue persists"
      else some "Detection error occurred")

/-- The detection-state part of `reset` (usePoseDetection.ts lines 276-281):
both counters cleared, hold inactive. -/
def resetDetection : DetectionState := ⟨0, 0, false⟩

/-- Feeds a list of frames through `detectPoseStep`, counting how many times
`onPlankDetected` and `onPlankLost` fire. -/
def runDetection (stabilityFrames gracePeriodFrames : ℕ) (s : DetectionState) :
    List FrameInput → DetectionState × ℕ × ℕ
  | [] => (s, 0, 0)
  | input :: rest =>
    let step := detectPoseStep stabilityFrames gracePeriodFrames s input
    let tail := runDetection stabilityFrames gracePeriodFrames step.1 rest
    (tail.1, (if step.2.1.plankDetected then 1 else 0) + tail.2.1,
      (if step.2.1.plankLost then 1 else 0) + tail.2.2)

/-! ## Adaptive sampler (detectPose, usePoseDetection.ts lines 219-256) -/

/-- The adaptive-FPS refs of the hook: `detectionDurationsRef`,
`currentFpsRef`, `frameTimeThresholdRef`.  Latencies are exact rationals. -/
structure AdaptiveFpsState where
  detectionDurations : List ℚ
  currentFps : ℚ
  frameTimeThreshold : ℚ
deriving DecidableEq, Repr

/-- The sliding-window maintenance of the adaptive-FPS block
(usePoseDetection.ts lines 222-227): push the new duration, then `shift` the
oldest sample if the window exceeds 10. -/
def adaptiveWindowPush (durations : List ℚ) (detectionDuration : ℚ) : List ℚ :=
  if (durations ++ [detectionDuration]).length > 10 then (durations ++ [detectionDuration]).tail
  else durations ++ [detectionDuration]

/-- The FPS reclassification of the adaptive-FPS block (usePoseDetection.ts
lines 236-248), as a function of the rolling average. -/
def adaptiveTargetFps (minFps maxFps avgDetectionTime : ℚ) : ℚ :=
  if avgDetectionTime > 80 then minFps
  else if avgDetectionTime > 50 then max minFps ((⌊maxFps * (6 / 10)⌋ : ℤ) : ℚ)
  else if avgDetectionTime < 30 then maxFps
  else ((⌊(minFps + maxFps) / 2⌋ : ℤ) : ℚ)

/-- The adaptive-FPS block of `detectPose` (usePoseDetection.ts lines
219-256): push the new duration, evict the oldest past 10 samples, and once
the window holds exactly 10 samples reclassify the target FPS from the
rolling average and set `frameTimeThreshold = 1000 / currentFps`. -/
def adaptiveFpsUpdate (minFps maxFps : ℚ) (s : AdaptiveFpsState)
    (detectionDuration : ℚ) : AdaptiveFpsState :=
  if (adaptiveWindowPush s.detectionDurations detectionDuration).length = 10 then
    { detectionDurations := adaptiveWindowPush s.detectionDurations detectionDuration
      currentFps := adaptiveTargetFps minFps maxFps
        ((adaptiveWindowPush s.detectionDurations detectionDuration).sum / 10)
      frameTimeThreshold := 1000 / adaptiveTargetFps minFps maxFps
        ((adaptiveWindowPush s.detectionDurations detectionDuration).sum / 10) }
  else
    { s with detectionDurations := adaptiveWindowPush s.detectionDurations detectionDuration }

/-- The adaptive-FPS part of `reset` (usePoseDetection.ts lines 290-293). -/
def resetAdaptiveFps (maxFps : ℚ) : AdaptiveFpsState :=
  ⟨[], maxFps, 1000 / maxFps⟩

/-! ## Detector lifecycle manager (mediapipeLoader.ts) -/

/-- The module-level state of mediapipeLoader.ts (lines 10-12):
`poseLandmarkerInstance`, `isLoading`, `loadPromise`.  Handles and promises
are identified by numbers; `nextId` supplies a fresh identity for each new
in-flight load. -/
structure LoaderState where
  inst : Option ℕ
  isLoading : Bool
  loadPromise : Option ℕ
  nextId : ℕ
deriving DecidableEq, Repr

/-- What a call to `loadPoseLandmarker` hands back to its caller: the cached
instance, or a (possibly already in-flight) promise. -/
inductive LoadCallResult where
  | cached (h : ℕ)
  | promise (p : ℕ)
deriving DecidableEq, Repr

/-- The synchronous part of `loadPoseLandmarker` (mediapipeLoader.ts lines
18-31 and 70): return the cached instance if present, else the in-flight
promise if one exists, else create a fresh promise and mark loading. -/
def loadPoseLandmarker (s : LoaderState) : LoaderState × LoadCallResult :=
  match s.inst with
  | some h => (s, .cached h)
  | none =>
    match s.isLoading, s.loadPromise with
    | true, some p => (s, .promise p)
    | _, _ =>
      ({ s with isLoading := true, loadPromise := some s.nextId, nextId := s.nextId + 1 },
        .promise s.nextId)

/-- Successful completion of the in-flight load (mediapipeLoader.ts lines
58-62): the instance is cached and loading ends. -/
def loadSuccess (s : LoaderState) (h : ℕ) : LoaderState :=
  { s with inst := some h, isLoading := false }

/-- Failed completion of the in-flight load (mediapipeLoader.ts lines 63-67):
loading state is cleared, the pending promise is dropped, and the rejection
carries a human-readable cause. -/
def loadFailure (s : LoaderState) (cause : String) : LoaderState × String :=
  ({ s with isLoading := false, loadPromise := none },
    "Failed to load MediaPipe: " ++ cause)

/-! ## Smoother lemmas -/

/-- With `alpha = 1` the EMA blend returns the current landmark unchanged. -/
lemma smoothOne_one (c p : Landmark) : smoothOne 1 c p = c := by
  ext <;> simp [smoothOne]

/-- With `alpha = 1` the index-aligned smoothing pass is the identity on the
current landmark list, whatever the previous list is. -/
lemma smoothZip_one (cs : List Landmark) : ∀ ps, smoothZip 1 cs ps = cs := by
  induction cs with
  | nil => intro ps; cases ps <;> rfl
  | cons c cs ih =>
    intro ps
    cases ps with
    | nil => simp [smoothZip, ih]
    | cons p ps => simp [smoothZip, smoothOne_one, ih]

/-- C6: with no previous landmark set, `smoothLandmarks` returns the current
set unchanged for any alpha (cold start); and with `alpha = 1` it returns the
current set exactly, per coordinate, for equal-length landmark lists (each
coordinate is `1*current + 0*previous` and visibility is copied from
`current`). -/
theorem C6_smoothing_identities :
    (∀ (x : List Landmark) (alpha : ℝ), smoothLandmarks x none alpha = x) ∧
    (∀ (current previous : List Landmark), current.length = previous.length →
      smoothLandmarks current (some previous) 1 = current) := by
  refine ⟨fun x alpha => rfl, fun current previous _ => ?_⟩
  simpa [smoothLandmarks] using smoothZip_one current previous

/-- Witness for C6 at concrete landmark lists. -/
theorem C6_smoothing_identities_witness :
    smoothLandmarks [⟨1, 2, 3, 1⟩] none 0.3 = [⟨1, 2, 3, 1⟩] ∧
    smoothLandmarks [⟨1, 2, 3, 1⟩] (some [⟨4, 5, 6, 1⟩]) 1 = [⟨1, 2, 3, 1⟩] :=
  ⟨C6_smoothing_identities.1 _ _, C6_smoothing_identities.2 _ _ rfl⟩

/-! ## Stability-counter lemmas -/

/-- C8: every processed frame (plank, non-plank, or no person) increments one
stability counter and resets the other to zero — so after any processed frame
at most one of the two counters is non-zero — and `reset` clears both
counters and the active flag. -/
theorem C8_counter_invariant :
    (∀ sf gf : ℕ, ∀ s : DetectionState,
      (detectPoseStep sf gf s (.frame true)).1.plankDetectedCount = s.plankDetectedCount + 1 ∧
      (detectPoseStep sf gf s (.frame true)).1.plankLostCount = 0) ∧
    (∀ sf gf : ℕ, ∀ s : DetectionState,
      (detectPoseStep sf gf s (.frame false)).1.plankLostCount = s.plankLostCount + 1 ∧
      (detectPoseStep sf gf s (.frame false)).1.plankDetectedCount = 0) ∧
    (∀ sf gf : ℕ, ∀ s : DetectionState,
      (detectPoseStep sf gf s .noPerson).1.plankLostCount = s.plankLostCount + 1 ∧
      (detectPoseStep sf gf s .noPerson).1.plankDetectedCount = 0) ∧
    (∀ sf gf : ℕ, ∀ s : DetectionState, ∀ b : Bool,
      (detectPoseStep sf gf s (.frame b)).1.plankDetectedCount = 0 ∨
      (detectPoseStep sf gf s (.frame b)).1.plankLostCount = 0) ∧
    (∀ sf gf : ℕ, ∀ s : DetectionState,
      (detectPoseStep sf gf s .noPerson).1.plankDetectedCount = 0 ∨
      (detectPoseStep sf gf s .noPerson).1.plankLostCount = 0) ∧
    (resetDetection.plankDetectedCount = 0 ∧ resetDetection.plankLostCount = 0 ∧
      resetDetection.isPlankActive = false) := by
  refine ⟨?_, ?_, ?_, ?_, ?_, by decide⟩ <;> intro sf gf s
  · simp only [detectPoseStep]; split <;> simp
  · simp only [detectPoseStep]; split <;> simp
  · simp only [detectPoseStep]; split <;> simp
  · intro b; cases b <;> simp only [detectPoseStep] <;> split <;> simp
  · simp only [detectPoseStep]; split <;> simp

/-! ## Error-frame lemmas (C4) -/

/-- C4 (amended): a throwing per-frame detection call is caught inside
`detectPose` — the step function returns normally with an error message
instead of propagating — but the frame is skipped entirely: both stability
counters and the active-hold flag are left exactly as they were (the catch
block never touches them), so an active hold is unaffected by error frames
and can only end through the grace-period path on genuine invalid or
no-person frames. -/
theorem C4_error_frame_skipped (sf gf : ℕ) (s : DetectionState) (code5 : Bool) :
    detectPoseStep sf gf s (.errorFrame code5) =
      (s, ⟨false, false⟩,
        some (if code5 then "Detection error - try refreshing if issue persists"
          else "Detection error occurred")) := by
  cases code5 <;> rfl

/-- Counterexample to C4 as stated: at counters (7, 0) an error frame does
not increment the consecutive-invalid counter and does not reset the
consecutive-valid counter — the catch block leaves both untouched. -/
theorem C4_error_frame_counterexample :
    ¬ ((detectPoseStep 15 50 ⟨7, 0, false⟩ (.errorFrame false)).1.plankLostCount = 0 + 1 ∧
       (detectPoseStep 15 50 ⟨7, 0, false⟩ (.errorFrame false)).1.plankDetectedCount = 0) := by
  decide

/-! ## Visibility-guard lemmas (C2) -/

/-- C2: whenever the nose is not visible at threshold 0.3, or neither side
chain (shoulder, hip, knee, ankle) is fully visible, `detectPlankPosition`
returns early with `isPlank = false`, `confidence = 0` and exactly one
feedback message asking for the full body to be visible; no geometric
criterion contributes to the result. -/
theorem C2_visibility_guard (lms : List Landmark)
    (h : ¬ landmarkOk lms NOSE 0.3 ∨ ¬ (leftSideVisible lms 0.3 ∨ rightSideVisible lms 0.3)) :
    detectPlankPosition lms =
      { isPlank := false, confidence := 0,
        feedback := ["Position yourself sideways to camera. Show full body from head to feet."],
        landmarks := some lms } := by
  have hv : ¬ areLandmarksVisible lms 0.3 := by
    rintro ⟨h1, h2⟩
    rcases h with h | h
    · exact h h1
    · exact h h2
  unfold detectPlankPosition
  rw [if_pos hv]

/-- Witness for C2: the empty landmark list has no visible nose. -/
theorem C2_visibility_guard_witness :
    detectPlankPosition [] =
      { isPlank := false, confidence := 0,
        feedback := ["Position yourself sideways to camera. Show full body from head to feet."],
        landmarks := some [] } :=
  C2_visibility_guard [] (Or.inl (by simp [landmarkOk, NOSE]))

/-! ## Loader lemmas (C9) -/

/-- C9: while a load is in flight every further `loadPoseLandmarker` call
returns the same pending promise without starting a duplicate load; once the
instance is cached, calls return it; and a load failure clears the loading
state, surfaces a human-readable cause, and leaves the state so that the next
call starts a fresh acquisition attempt. -/
theorem C9_loader_promise_caching :
    (∀ (s : LoaderState) (p : ℕ), s.inst = none → s.isLoading = true →
      s.loadPromise = some p → loadPoseLandmarker s = (s, .promise p)) ∧
    (∀ (s : LoaderState) (h : ℕ), s.inst = some h →
      loadPoseLandmarker s = (s, .cached h)) ∧
    (∀ (s : LoaderState) (cause : String),
      (loadFailure s cause).2 = "Failed to load MediaPipe: " ++ cause ∧
      (loadFailure s cause).1.isLoading = false ∧
      (loadFailure s cause).1.loadPromise = none ∧
      (s.inst = none →
        (loadPoseLandmarker (loadFailure s cause).1).2 = .promise s.nextId ∧
        (loadPoseLandmarker (loadFailure s cause).1).1.isLoading = true ∧
        (loadPoseLandmarker (loadFailure s cause).1).1.loadPromise = some s.nextId)) := by
  refine ⟨?_, ?_, ?_⟩
  · rintro ⟨inst, loading, promise, next⟩ p h1 h2 h3
    subst h1; subst h2; subst h3
    rfl
  · rintro ⟨inst, loading, promise, next⟩ h h1
    subst h1; rfl
  · rintro ⟨inst, loading, promise, next⟩ cause
    refine ⟨rfl, rfl, rfl, ?_⟩
    rintro rfl
    exact ⟨rfl, rfl, rfl⟩

/-- Witness for C9: a concrete in-flight state returns its own pending
promise; a concrete cached state returns its instance; a concrete failure
clears the loading state and the next call starts a fresh attempt. -/
theorem C9_loader_promise_caching_witness :
    loadPoseLandmarker ⟨none, true, some 0, 1⟩ = (⟨none, true, some 0, 1⟩, .promise 0) ∧
    loadPoseLandmarker ⟨some 7, false, none, 3⟩ = (⟨some 7, false, none, 3⟩, .cached 7) ∧
    (loadFailure ⟨none, true, some 0, 1⟩ "boom").2 = "Failed to load MediaPipe: " ++ "boom" ∧
    (loadPoseLandmarker (loadFailure ⟨none, true, some 0, 1⟩ "boom").1).2 = .promise 1 :=
  ⟨C9_loader_promise_caching.1 _ 0 rfl rfl rfl,
    C9_loader_promise_caching.2.1 _ 7 rfl,
    (C9_loader_promise_caching.2.2 _ "boom").1,
    ((C9_loader_promise_caching.2.2 ⟨none, true, some 0, 1⟩ "boom").2.2.2 rfl).1⟩

/-! ## Adaptive-sampler lemmas (C5) -/

/-- The latency window never grows beyond 10 samples. -/
lemma adaptiveWindowPush_length_le (l : List ℚ) (d : ℚ) (h : l.length ≤ 10) :
    (adaptiveWindowPush l d).length ≤ 10 := by
  unfold adaptiveWindowPush
  split_ifs with hbig <;> simp at hbig ⊢ <;> omega

/-- Pushing onto a full window evicts the oldest sample. -/
lemma adaptiveWindowPush_full (l : List ℚ) (d : ℚ) (h : l.length = 10) :
    adaptiveWindowPush l d = l.tail ++ [d] := by
  unfold adaptiveWindowPush
  rw [if_pos (by simp [h])]
  cases l with
  | nil => simp at h
  | cons a t => simp

/-- Average above 80 ms selects the minimum rate. -/
lemma adaptiveTargetFps_high (avg : ℚ) (h : avg > 80) : adaptiveTargetFps 5 15 avg = 5 := by
  unfold adaptiveTargetFps
  rw [if_pos h]

/-- Average in (50, 80] selects 60 percent of the maximum rate. -/
lemma adaptiveTargetFps_mid (avg : ℚ) (h1 : 50 < avg) (h2 : avg ≤ 80) :
    adaptiveTargetFps 5 15 avg = 9 := by
  unfold adaptiveTargetFps
  rw [if_neg (by linarith), if_pos h1]
  norm_num

/-- Average below 30 ms selects the maximum rate. -/
lemma adaptiveTargetFps_low (avg : ℚ) (h : avg < 30) : adaptiveTargetFps 5 15 avg = 15 := by
  unfold adaptiveTargetFps
  rw [if_neg (by linarith), if_neg (by linarith), if_pos h]

/-- Average in [30, 50] selects the midpoint of the two rates. -/
lemma adaptiveTargetFps_between (avg : ℚ) (h1 : 30 ≤ avg) (h2 : avg ≤ 50) :
    adaptiveTargetFps 5 15 avg = 10 := by
  unfold adaptiveTargetFps
  rw [if_neg (by linarith), if_neg (by linarith), if_neg (by linarith)]
  norm_num

/-- C5: with the default rates (min 5/s, max 15/s), whenever the latency
window holds 10 samples after a `recordLatency` step the rolling average
reclassifies the target rate — above 80 ms the minimum rate 5, in (50, 80]
the 60-percent-of-max rate 9, below 30 ms the maximum rate 15, otherwise the
midpoint 10 — and the frame-time threshold becomes `1000 / rate`; the window
never grows beyond 10 samples, the oldest being evicted. -/
theorem C5_adaptive_reclassification (s : AdaptiveFpsState) (d : ℚ)
    (h : s.detectionDurations.length ≤ 10) :
    (adaptiveFpsUpdate 5 15 s d).detectionDurations.length ≤ 10 ∧
    (s.detectionDurations.length = 10 →
      (adaptiveFpsUpdate 5 15 s d).detectionDurations = s.detectionDurations.tail ++ [d]) ∧
    ((adaptiveFpsUpdate 5 15 s d).detectionDurations.length = 10 →
      ((adaptiveFpsUpdate 5 15 s d).detectionDurations.sum / 10 > 80 →
        (adaptiveFpsUpdate 5 15 s d).currentFps = 5 ∧
        (adaptiveFpsUpdate 5 15 s d).frameTimeThreshold = 200) ∧
      (50 < (adaptiveFpsUpdate 5 15 s d).detectionDurations.sum / 10 ∧
          (adaptiveFpsUpdate 5 15 s d).detectionDurations.sum / 10 ≤ 80 →
        (adaptiveFpsUpdate 5 15 s d).currentFps = 9 ∧
        (adaptiveFpsUpdate 5 15 s d).frameTimeThreshold = 1000 / 9) ∧
      ((adaptiveFpsUpdate 5 15 s d).detectionDurations.sum / 10 < 30 →
        (adaptiveFpsUpdate 5 15 s d).currentFps = 15 ∧
        (adaptiveFpsUpdate 5 15 s d).frameTimeThreshold = 1000 / 15) ∧
      (30 ≤ (adaptiveFpsUpdate 5 15 s d).detectionDurations.sum / 10 ∧
          (adaptiveFpsUpdate 5 15 s d).detectionDurations.sum / 10 ≤ 50 →
        (adaptiveFpsUpdate 5 15 s d).currentFps = 10 ∧
        (adaptiveFpsUpdate 5 15 s d).frameTimeThreshold = 100)) := by
  have hwin : (adaptiveFpsUpdate 5 15 s d).detectionDurations =
      adaptiveWindowPush s.detectionDurations d := by
    unfold adaptiveFpsUpdate
    split_ifs <;> rfl
  refine ⟨?_, ?_, ?_⟩
  · rw [hwin]
    exact adaptiveWindowPush_length_le s.detectionDurations d h
  · intro h10
    rw [hwin]
    exact adaptiveWindowPush_full s.detectionDurations d h10
  · intro hlen
    rw [hwin] at hlen
    have hupd : adaptiveFpsUpdate 5 15 s d =
        { detectionDurations := adaptiveWindowPush s.detectionDurations d
          currentFps := adaptiveTargetFps 5 15
            ((adaptiveWindowPush s.detectionDurations d).sum / 10)
          frameTimeThreshold := 1000 / adaptiveTargetFps 5 15
            ((adaptiveWindowPush s.detectionDurations d).sum / 10) } := by
      unfold adaptiveFpsUpdate
      rw [if_pos hlen]
    refine ⟨fun havg => ?_, fun havg => ?_, fun havg => ?_, fun havg => ?_⟩ <;>
      rw [hupd] at havg ⊢ <;> simp only at havg ⊢
    · rw [adaptiveTargetFps_high _ havg]
      norm_num
    · rw [adaptiveTargetFps_mid _ havg.1 havg.2]
      norm_num
    · rw [adaptiveTargetFps_low _ havg]
      norm_num
    · rw [adaptiveTargetFps_between _ havg.1 havg.2]
      norm_num

/-- Witness for C5: ten latencies of 100 ms drive the rate to the minimum and
the threshold to 200 ms. -/
theorem C5_adaptive_reclassification_witness :
    (adaptiveFpsUpdate 5 15 ⟨List.replicate 9 100, 15, 1000 / 15⟩ 100).currentFps = 5 ∧
    (adaptiveFpsUpdate 5 15 ⟨List.replicate 9 100, 15, 1000 / 15⟩ 100).frameTimeThreshold = 200 :=
  ((C5_adaptive_reclassification ⟨List.replicate 9 100, 15, 1000 / 15⟩ 100
    (by simp)).2.2 (by simp [adaptiveFpsUpdate, adaptiveWindowPush])).1
    (by norm_num [adaptiveFpsUpdate, adaptiveWindowPush, List.replicate])

/-! ## Stability-tracker run lemmas (C1) -/

/-- Splitting a frame run over list concatenation: final state composes and
the event counts add. -/
lemma runDetection_append (sf gf : ℕ) (s : DetectionState) (l1 l2 : List FrameInput) :
    runDetection sf gf s (l1 ++ l2) =
      ((runDetection sf gf (runDetection sf gf s l1).1 l2).1,
        (runDetection sf gf s l1).2.1 + (runDetection sf gf (runDetection sf gf s l1).1 l2).2.1,
        (runDetection sf gf s l1).2.2 +
          (runDetection sf gf (runDetection sf gf s l1).1 l2).2.2) := by
  induction l1 generalizing s with
  | nil => simp [runDetection]
  | cons i l ih => simp [runDetection, ih, add_assoc]

/-- Fewer than `stabilityFrames` plank frames from the idle start: the valid
counter accumulates, the hold stays inactive, and no event fires. -/
lemma runDetection_valid_lt (sf gf : ℕ) : ∀ k, k < sf →
    runDetection sf gf resetDetection (List.replicate k (.frame true)) = (⟨k, 0, false⟩, 0, 0) := by
  intro k
  induction k with
  | zero => intro _; rfl
  | succ k ih =>
    intro hk
    rw [List.replicate_succ', runDetection_append, ih (by omega)]
    have hstep : detectPoseStep sf gf ⟨k, 0, false⟩ (.frame true) =
        (⟨k + 1, 0, false⟩, ⟨false, false⟩, none) := by
      simp only [detectPoseStep]
      rw [if_neg (by simp; omega)]
    simp [runDetection, hstep]

/-- At least `stabilityFrames ≥ 1` consecutive plank frames from the idle
start: the hold activates and `onPlankDetected` fires exactly once. -/
lemma runDetection_valid_ge (sf gf : ℕ) (h1 : 1 ≤ sf) : ∀ k, sf ≤ k →
    runDetection sf gf resetDetection (List.replicate k (.frame true)) = (⟨k, 0, true⟩, 1, 0) := by
  intro k hk
  induction k with
  | zero => omega
  | succ k ih =>
    by_cases hick : sf ≤ k
    · rw [List.replicate_succ', runDetection_append, ih hick]
      have hstep : detectPoseStep sf gf ⟨k, 0, true⟩ (.frame true) =
          (⟨k + 1, 0, true⟩, ⟨false, false⟩, none) := by
        simp only [detectPoseStep]
        rw [if_neg (by simp)]
      simp [runDetection, hstep]
    · have hksf : k + 1 = sf := by omega
      rw [List.replicate_succ', runDetection_append,
        runDetection_valid_lt sf gf k (by omega)]
      have hstep : detectPoseStep sf gf ⟨k, 0, false⟩ (.frame true) =
          (⟨k + 1, 0, true⟩, ⟨true, false⟩, none) := by
        simp only [detectPoseStep]
        rw [if_pos (by simp; omega)]
      simp [runDetection, hstep]

/-- C1: from the idle start, `stabilityFrames - 1` consecutive plank frames
followed by one non-plank frame never fire `onPlankDetected`; exactly
`stabilityFrames` consecutive plank frames fire it exactly once; and
`stabilityFrames + 50` consecutive plank frames still fire it exactly once. -/
theorem C1_stability_event_counts (sf gf : ℕ) (h : 1 ≤ sf) :
    (runDetection sf gf resetDetection
      (List.replicate (sf - 1) (.frame true) ++ [.frame false])).2.1 = 0 ∧
    (runDetection sf gf resetDetection (List.replicate sf (.frame true))).2.1 = 1 ∧
    (runDetection sf gf resetDetection (List.replicate (sf + 50) (.frame true))).2.1 = 1 := by
  refine ⟨?_, ?_, ?_⟩
  · rw [runDetection_append, runDetection_valid_lt sf gf (sf - 1) (by omega)]
    have hstep : detectPoseStep sf gf ⟨sf - 1, 0, false⟩ (.frame false) =
        (⟨0, 1, false⟩, ⟨false, false⟩, none) := by
      simp only [detectPoseStep]
      rw [if_neg (by simp)]
    simp [runDetection, hstep]
  · rw [runDetection_valid_ge sf gf h sf le_rfl]
  · rw [runDetection_valid_ge sf gf h (sf + 50) (by omega)]

/-- Witness for C1 with the default configuration (15 stability frames, 50
grace frames). -/
theorem C1_stability_event_counts_witness :
    (runDetection 15 50 resetDetection
      (List.replicate 14 (.frame true) ++ [.frame false])).2.1 = 0 ∧
    (runDetection 15 50 resetDetection (List.replicate 15 (.frame true))).2.1 = 1 ∧
    (runDetection 15 50 resetDetection (List.replicate 65 (.frame true))).2.1 = 1 :=
  C1_stability_event_counts 15 50 (by decide)

/-! ## Angle-geometry lemmas (C7) -/

/-- `calculateAngle` is symmetric under swapping the two endpoints. -/
lemma calculateAngle_swap (a b c : Landmark) : calculateAngle a b c = calculateAngle c b a := by
  unfold calculateAngle
  simp only []
  by_cases h : Real.sqrt ((a.x - b.x) * (a.x - b.x) + (a.y - b.y) * (a.y - b.y)) = 0 ∨
      Real.sqrt ((c.x - b.x) * (c.x - b.x) + (c.y - b.y) * (c.y - b.y)) = 0
  · rw [if_pos h, if_pos h.symm]
  · rw [if_neg h, if_neg (fun hc => h hc.symm)]
    have hdot : (c.x - b.x) * (a.x - b.x) + (c.y - b.y) * (a.y - b.y) =
        (a.x - b.x) * (c.x - b.x) + (a.y - b.y) * (c.y - b.y) := by ring
    rw [hdot, mul_comm (Real.sqrt ((c.x - b.x) * (c.x - b.x) + (c.y - b.y) * (c.y - b.y)))
      (Real.sqrt ((a.x - b.x) * (a.x - b.x) + (a.y - b.y) * (a.y - b.y)))]

/-- When the two endpoints coincide the angle is 0 (either through the
zero-magnitude guard or through `arccos 1 = 0`). -/
lemma calculateAngle_self (a b c : Landmark) (hac : a = c) : calculateAngle a b c = 0 := by
  subst hac
  unfold calculateAngle
  simp only []
  by_cases h : Real.sqrt ((a.x - b.x) * (a.x - b.x) + (a.y - b.y) * (a.y - b.y)) = 0
  · rw [if_pos (Or.inl h)]
  · rw [if_neg (by tauto)]
    have hsq : 0 ≤ (a.x - b.x) * (a.x - b.x) + (a.y - b.y) * (a.y - b.y) :=
      add_nonneg (mul_self_nonneg _) (mul_self_nonneg _)
    have hne : (a.x - b.x) * (a.x - b.x) + (a.y - b.y) * (a.y - b.y) ≠ 0 := by
      intro h0
      exact h (by rw [h0, Real.sqrt_zero])
    rw [Real.mul_self_sqrt hsq, div_self hne]
    norm_num [Real.arccos_one]

/-- When `b` lies strictly between distinct `a` and `c` on one line, the
vectors from `b` to the endpoints are antiparallel, the clamped cosine is
exactly -1, and the angle is 180 degrees. -/
lemma calculateAngle_between (a b c : Landmark) (t : ℝ) (ht0 : 0 < t) (ht1 : t < 1)
    (hbx : b.x = a.x + t * (c.x - a.x)) (hby : b.y = a.y + t * (c.y - a.y))
    (hne : a.x ≠ c.x ∨ a.y ≠ c.y) : calculateAngle a b c = 180 := by
  unfold calculateAngle
  simp only []
  have hD : 0 < (c.x - a.x) ^ 2 + (c.y - a.y) ^ 2 := by
    rcases hne with h | h
    · have hdx : c.x - a.x ≠ 0 := sub_ne_zero.mpr (Ne.symm h)
      positivity
    · have hdy : c.y - a.y ≠ 0 := sub_ne_zero.mpr (Ne.symm h)
      positivity
  have hax : a.x - b.x = -t * (c.x - a.x) := by rw [hbx]; ring
  have hay : a.y - b.y = -t * (c.y - a.y) := by rw [hby]; ring
  have hcx : c.x - b.x = (1 - t) * (c.x - a.x) := by rw [hbx]; ring
  have hcy : c.y - b.y = (1 - t) * (c.y - a.y) := by rw [hby]; ring
  have hmagBA : Real.sqrt ((a.x - b.x) * (a.x - b.x) + (a.y - b.y) * (a.y - b.y)) =
      t * Real.sqrt ((c.x - a.x) ^ 2 + (c.y - a.y) ^ 2) := by
    rw [hax, hay, show -t * (c.x - a.x) * (-t * (c.x - a.x)) + -t * (c.y - a.y) * (-t * (c.y - a.y))
      = t ^ 2 * ((c.x - a.x) ^ 2 + (c.y - a.y) ^ 2) by ring,
      Real.sqrt_mul (sq_nonneg t), Real.sqrt_sq ht0.le]
  have hmagBC : Real.sqrt ((c.x - b.x) * (c.x - b.x) + (c.y - b.y) * (c.y - b.y)) =
      (1 - t) * Real.sqrt ((c.x - a.x) ^ 2 + (c.y - a.y) ^ 2) := by
    rw [hcx, hcy, show (1 - t) * (c.x - a.x) * ((1 - t) * (c.x - a.x)) +
      (1 - t) * (c.y - a.y) * ((1 - t) * (c.y - a.y))
      = (1 - t) ^ 2 * ((c.x - a.x) ^ 2 + (c.y - a.y) ^ 2) by ring,
      Real.sqrt_mul (sq_nonneg (1 - t)), Real.sqrt_sq (by linarith)]
  have hsqrtD : 0 < Real.sqrt ((c.x - a.x) ^ 2 + (c.y - a.y) ^ 2) := Real.sqrt_pos.mpr hD
  have hBA : t * Real.sqrt ((c.x - a.x) ^ 2 + (c.y - a.y) ^ 2) ≠ 0 :=
    ne_of_gt (mul_pos ht0 hsqrtD)
  have hBC : (1 - t) * Real.sqrt ((c.x - a.x) ^ 2 + (c.y - a.y) ^ 2) ≠ 0 :=
    ne_of_gt (mul_pos (by linarith) hsqrtD)
  rw [hmagBA, hmagBC, if_neg (by push_neg; exact ⟨hBA, hBC⟩)]
  have hdot : (a.x - b.x) * (c.x - b.x) + (a.y - b.y) * (c.y - b.y) =
      -(t * (1 - t) * ((c.x - a.x) ^ 2 + (c.y - a.y) ^ 2)) := by
    rw [hax, hay, hcx, hcy]; ring
  have hcos : -(t * (1 - t) * ((c.x - a.x) ^ 2 + (c.y - a.y) ^ 2)) /
      (t * Real.sqrt ((c.x - a.x) ^ 2 + (c.y - a.y) ^ 2) *
        ((1 - t) * Real.sqrt ((c.x - a.x) ^ 2 + (c.y - a.y) ^ 2))) = -1 := by
    rw [show t * Real.sqrt ((c.x - a.x) ^ 2 + (c.y - a.y) ^ 2) *
        ((1 - t) * Real.sqrt ((c.x - a.x) ^ 2 + (c.y - a.y) ^ 2)) =
        t * (1 - t) * (Real.sqrt ((c.x - a.x) ^ 2 + (c.y - a.y) ^ 2) *
          Real.sqrt ((c.x - a.x) ^ 2 + (c.y - a.y) ^ 2)) by ring,
      Real.mul_self_sqrt hD.le]
    have hden : t * (1 - t) * ((c.x - a.x) ^ 2 + (c.y - a.y) ^ 2) ≠ 0 := by
      have h1t : 0 < 1 - t := by linarith
      positivity
    rw [neg_div, div_self hden]
  rw [hdot, hcos]
  rw [show max (-1 : ℝ) (min 1 (-1)) = -1 by norm_num, Real.arccos_neg_one]
  rw [mul_comm, mul_div_assoc, div_self Real.pi_ne_zero, mul_one]

/-- C7: `calculateAngle` is symmetric under swapping the endpoints, returns 0
when the endpoints coincide, and returns 180 degrees when the vertex lies
strictly between two distinct collinear endpoints. -/
theorem C7_angle_properties (a b c : Landmark) :
    calculateAngle a b c = calculateAngle c b a ∧
    (a = c → calculateAngle a b c = 0) ∧
    (∀ t : ℝ, 0 < t → t < 1 → b.x = a.x + t * (c.x - a.x) → b.y = a.y + t * (c.y - a.y) →
      (a.x ≠ c.x ∨ a.y ≠ c.y) → calculateAngle a b c = 180) :=
  ⟨calculateAngle_swap a b c, calculateAngle_self a b c,
    fun t ht0 ht1 hbx hby hne => calculateAngle_between a b c t ht0 ht1 hbx hby hne⟩

/-- Witness for C7 at concrete points: symmetry at a generic triple, 0 for
coinciding endpoints, 180 for the midpoint of a segment. -/
theorem C7_angle_properties_witness :
    calculateAngle ⟨0, 0, 0, 1⟩ ⟨5, 7, 0, 1⟩ ⟨2, 3, 0, 1⟩ =
      calculateAngle ⟨2, 3, 0, 1⟩ ⟨5, 7, 0, 1⟩ ⟨0, 0, 0, 1⟩ ∧
    calculateAngle ⟨1, 2, 0, 1⟩ ⟨5, 7, 0, 1⟩ ⟨1, 2, 0, 1⟩ = 0 ∧
    calculateAngle ⟨0, 0, 0, 1⟩ ⟨1, 0, 0, 1⟩ ⟨2, 0, 0, 1⟩ = 180 :=
  ⟨(C7_angle_properties _ _ _).1, (C7_angle_properties _ _ _).2.1 rfl,
    (C7_angle_properties ⟨0, 0, 0, 1⟩ ⟨1, 0, 0, 1⟩ ⟨2, 0, 0, 1⟩).2.2 (1 / 2)
      (by norm_num) (by norm_num) (by norm_num) (by norm_num) (Or.inl (by norm_num))⟩

/-! ## Angle range and dead-branch lemmas (C10) -/

/-- `calculateAngle` always returns a value in [0, 180]: it is the arccosine
of a cosine clamped to [-1, 1], scaled to degrees, or 0 at the guard. -/
lemma calculateAngle_mem (a b c : Landmark) :
    0 ≤ calculateAngle a b c ∧ calculateAngle a b c ≤ 180 := by
  unfold calculateAngle
  simp only []
  split_ifs with h
  · norm_num
  · constructor
    · exact div_nonneg (mul_nonneg (Real.arccos_nonneg _) (by norm_num)) Real.pi_pos.le
    · rw [div_le_iff₀ Real.pi_pos]
      have h2 := Real.arccos_le_pi (max (-1)
        (min 1 (((a.x - b.x) * (c.x - b.x) + (a.y - b.y) * (c.y - b.y)) /
          (Real.sqrt ((a.x - b.x) * (a.x - b.x) + (a.y - b.y) * (a.y - b.y)) *
            Real.sqrt ((c.x - b.x) * (c.x - b.x) + (c.y - b.y) * (c.y - b.y))))))
      nlinarith [Real.pi_pos]

/-- The measured body angle never exceeds 180 degrees, whichever sides are
visible (it is a single angle or the average of two angles in [0, 180]). -/
lemma bodyAngleOf_le_180 (lms : List Landmark) : bodyAngleOf lms ≤ 180 := by
  unfold bodyAngleOf
  split_ifs with h1 h2
  · have ha := (calculateAngle_mem (lmAt lms LEFT_SHOULDER) (lmAt lms LEFT_HIP)
      (lmAt lms LEFT_ANKLE)).2
    have hb := (calculateAngle_mem (lmAt lms RIGHT_SHOULDER) (lmAt lms RIGHT_HIP)
      (lmAt lms RIGHT_ANKLE)).2
    linarith
  · exact (calculateAngle_mem _ _ _).2
  · exact (calculateAngle_mem _ _ _).2

lemma lower_not_mem_colinearityCheck (x : ℝ) :
    "Lower your hips - avoid sagging" ∉ (colinearityCheck x).2 := by
  unfold colinearityCheck
  split_ifs <;> simp

/-- The sagging message can only come from the `bodyAngle > 190` branch,
which an angle bounded by 180 never reaches. -/
lemma lower_not_mem_alignmentCheck (x : ℝ) (hx : x ≤ 180) :
    "Lower your hips - avoid sagging" ∉ (alignmentCheck x).2 := by
  unfold alignmentCheck
  split_ifs with h1 h2 h3
  · simp
  · exfalso; linarith
  · simp
  · simp

lemma lower_not_mem_kneeCheck (x : ℝ) :
    "Lower your hips - avoid sagging" ∉ (kneeCheck x).2 := by
  unfold kneeCheck
  split_ifs <;> simp

lemma lower_not_mem_armStyleCheck (x : ℝ) :
    "Lower your hips - avoid sagging" ∉ (armStyleCheck x).2 := by
  unfold armStyleCheck
  split_ifs <;> simp

lemma lower_not_mem_armPlacementCheck (x : ℝ) :
    "Lower your hips - avoid sagging" ∉ (armPlacementCheck x).2 := by
  unfold armPlacementCheck
  split_ifs <;> simp

lemma lower_not_mem_headCheck (x : ℝ) :
    "Lower your hips - avoid sagging" ∉ (headCheck x).2 := by
  unfold headCheck
  split_ifs <;> simp

lemma lower_not_mem_levelnessCheck (x : ℝ) :
    "Lower your hips - avoid sagging" ∉ (levelnessCheck x).2 := by
  unfold levelnessCheck
  split_ifs <;> simp

lemma lower_not_mem_framingCheck (x : ℝ) :
    "Lower your hips - avoid sagging" ∉ (framingCheck x).2 := by
  unfold framingCheck
  split_ifs <;> simp

lemma lower_not_mem_positiveFeedback (b : Bool) (conf : ℤ) (fb : List String)
    (h : "Lower your hips - avoid sagging" ∉ fb) :
    "Lower your hips - avoid sagging" ∉ positiveFeedback b conf fb := by
  unfold positiveFeedback
  split_ifs <;> simp [h]

/-- No feedback list produced by the scorer ever contains the sagging
message, as long as the body angle is at most 180. -/
lemma lower_not_mem_scorePlank (colin bodyAngle kneeAngle elbowAngle d1 d2 d3 y : ℝ)
    (hx : bodyAngle ≤ 180) :
    "Lower your hips - avoid sagging" ∉
      (scorePlank colin bodyAngle kneeAngle elbowAngle d1 d2 d3 y).2.2 := by
  unfold scorePlank
  simp only []
  apply lower_not_mem_positiveFeedback
  simp only [List.mem_append, not_or]
  exact ⟨⟨⟨⟨⟨⟨⟨lower_not_mem_colinearityCheck _, lower_not_mem_alignmentCheck _ hx⟩,
    lower_not_mem_kneeCheck _⟩, lower_not_mem_armStyleCheck _⟩,
    lower_not_mem_armPlacementCheck _⟩, lower_not_mem_headCheck _⟩,
    lower_not_mem_levelnessCheck _⟩, lower_not_mem_framingCheck _⟩

/-- C10: `calculateAngle` always lies in [0, 180] (arccosine of a clamped
cosine), the measured body angle never exceeds 180, so the
`bodyAngle > 190` penalty branch and the `bodyAngle > 180` ideal-band
disjunct are unreachable and `detectPlankPosition` never emits the
"Lower your hips - avoid sagging" feedback for any landmark input. -/
theorem C10_angle_bounds_dead_branch :
    (∀ a b c : Landmark, 0 ≤ calculateAngle a b c ∧ calculateAngle a b c ≤ 180) ∧
    (∀ lms : List Landmark, bodyAngleOf lms ≤ 180) ∧
    (∀ lms : List Landmark,
      "Lower your hips - avoid sagging" ∉ (detectPlankPosition lms).feedback) := by
  refine ⟨calculateAngle_mem, bodyAngleOf_le_180, fun lms => ?_⟩
  unfold detectPlankPosition
  split_ifs with h
  · simp only []
    exact lower_not_mem_scorePlank _ _ _ _ _ _ _ _ (bodyAngleOf_le_180 lms)
  · simp

/-! ## Lemmas for the 140-degree construction (C3) -/

/-- Evaluation of `calculateAngle` when both endpoints are given in polar
form around the vertex: the angle is the difference of the two direction
angles (when that difference lies in `[0, π]`), in degrees. -/
lemma calculateAngle_dir (a b c : Landmark) (r s t₁ t₂ : ℝ) (hr : 0 < r) (hs : 0 < s)
    (h0 : 0 ≤ t₁ - t₂) (hpi : t₁ - t₂ ≤ Real.pi)
    (hax : a.x = b.x + r * Real.cos t₁) (hay : a.y = b.y + r * Real.sin t₁)
    (hcx : c.x = b.x + s * Real.cos t₂) (hcy : c.y = b.y + s * Real.sin t₂) :
    calculateAngle a b c = (t₁ - t₂) * 180 / Real.pi := by
  unfold calculateAngle
  simp only []
  have hax' : a.x - b.x = r * Real.cos t₁ := by rw [hax]; ring
  have hay' : a.y - b.y = r * Real.sin t₁ := by rw [hay]; ring
  have hcx' : c.x - b.x = s * Real.cos t₂ := by rw [hcx]; ring
  have hcy' : c.y - b.y = s * Real.sin t₂ := by rw [hcy]; ring
  have hmagBA : Real.sqrt ((a.x - b.x) * (a.x - b.x) + (a.y - b.y) * (a.y - b.y)) = r := by
    rw [hax', hay', show r * Real.cos t₁ * (r * Real.cos t₁) + r * Real.sin t₁ * (r * Real.sin t₁)
      = r ^ 2 * (Real.sin t₁ ^ 2 + Real.cos t₁ ^ 2) by ring, Real.sin_sq_add_cos_sq, mul_one,
      Real.sqrt_sq hr.le]
  have hmagBC : Real.sqrt ((c.x - b.x) * (c.x - b.x) + (c.y - b.y) * (c.y - b.y)) = s := by
    rw [hcx', hcy', show s * Real.cos t₂ * (s * Real.cos t₂) + s * Real.sin t₂ * (s * Real.sin t₂)
      = s ^ 2 * (Real.sin t₂ ^ 2 + Real.cos t₂ ^ 2) by ring, Real.sin_sq_add_cos_sq, mul_one,
      Real.sqrt_sq hs.le]
  rw [hmagBA, hmagBC, if_neg (by push_neg; exact ⟨hr.ne', hs.ne'⟩)]
  have hdot : (a.x - b.x) * (c.x - b.x) + (a.y - b.y) * (c.y - b.y) =
      r * s * Real.cos (t₁ - t₂) := by
    rw [hax', hay', hcx', hcy', Real.cos_sub]
    ring
  have hrs : r * s ≠ 0 := (mul_pos hr hs).ne'
  rw [hdot, mul_div_assoc, mul_div_cancel_left₀ _ hrs]
  rw [min_eq_right (Real.cos_le_one _), max_eq_right (Real.neg_one_le_cos _),
    Real.arccos_cos h0 hpi]
  ring

/-- `sin (7π/9) = sin (2π/9)` is nonnegative. -/
lemma sag_sin_nonneg : 0 ≤ Real.sin (7 * Real.pi / 9) :=
  Real.sin_nonneg_of_nonneg_of_le_pi (by positivity) (by linarith [Real.pi_pos])

/-- `sin (7π/9)` is at most 0.7 (it equals `sin (2π/9) < 2π/9 < 0.7`). -/
lemma sag_sin_le : Real.sin (7 * Real.pi / 9) ≤ 0.7 := by
  rw [show 7 * Real.pi / 9 = Real.pi - 2 * Real.pi / 9 by ring, Real.sin_pi_sub]
  have h1 : Real.sin (2 * Real.pi / 9) < 2 * Real.pi / 9 :=
    Real.sin_lt (by positivity)
  have h2 : Real.pi < 3.15 := Real.pi_lt_d2
  linarith

/-- `cos (7π/9) = -cos (2π/9)`. -/
lemma sag_cos_eq : Real.cos (7 * Real.pi / 9) = -Real.cos (2 * Real.pi / 9) := by
  rw [show 7 * Real.pi / 9 = Real.pi - 2 * Real.pi / 9 by ring, Real.cos_pi_sub]

/-- `cos (2π/9)` is at least 0.7 (since `2π/9 ≤ π/4` and `cos (π/4) ≥ 0.7`). -/
lemma sag_cos2_ge : (0.7 : ℝ) ≤ Real.cos (2 * Real.pi / 9) := by
  have hpi := Real.pi_pos
  have h1 : 2 * Real.pi / 9 ≤ Real.pi / 4 := by linarith
  have h2 : Real.cos (Real.pi / 4) ≤ Real.cos (2 * Real.pi / 9) :=
    Real.cos_le_cos_of_nonneg_of_le_pi (by positivity) (by linarith) h1
  have h3 : Real.cos (Real.pi / 4) = Real.sqrt 2 / 2 := Real.cos_pi_div_four
  have h4 : (1.4 : ℝ) ≤ Real.sqrt 2 := by
    nlinarith [Real.sq_sqrt (by norm_num : (0 : ℝ) ≤ 2), Real.sqrt_nonneg 2]
  linarith

/-- `cos (7π/9)` is at most -0.7. -/
lemma sag_cos_le : Real.cos (7 * Real.pi / 9) ≤ -0.7 := by
  rw [sag_cos_eq]
  linarith [sag_cos2_ge]

/-- Establishing `landmarkOk` from an evaluated lookup. -/
lemma landmarkOk_of (lms : List Landmark) (i : ℕ) (l : Landmark) (h : lms[i]? = some l)
    (h1 : l.visibility ≠ 0) (h2 : (0.3 : ℝ) ≤ l.visibility) : landmarkOk lms i 0.3 := by
  unfold landmarkOk
  rw [h]
  exact ⟨h1, h2⟩

lemma sag_left_visible : leftSideVisible sag140Landmarks 0.3 :=
  ⟨landmarkOk_of _ _ sagShoulder rfl (by norm_num [sagShoulder]) (by norm_num [sagShoulder]),
    landmarkOk_of _ _ sagHip rfl (by norm_num [sagHip]) (by norm_num [sagHip]),
    landmarkOk_of _ _ sagKnee rfl (by norm_num [sagKnee]) (by norm_num [sagKnee]),
    landmarkOk_of _ _ sagAnkle rfl (by norm_num [sagAnkle]) (by norm_num [sagAnkle])⟩

lemma sag_right_not_visible : ¬ rightSideVisible sag140Landmarks 0.3 := by
  rintro ⟨h, -⟩
  unfold landmarkOk at h
  rw [show sag140Landmarks[RIGHT_SHOULDER]? = some dummyLm from rfl] at h
  exact h.1 rfl

lemma sag_visible : areLandmarksVisible sag140Landmarks 0.3 :=
  ⟨landmarkOk_of _ _ sagNose rfl (by norm_num [sagNose]) (by norm_num [sagNose]),
    Or.inl sag_left_visible⟩

/-- The side-selection in every measure reduces to the left-side expression. -/
lemma sag_not_both : ¬ (leftSideVisible sag140Landmarks 0.3 ∧ rightSideVisible sag140Landmarks 0.3) :=
  fun h => sag_right_not_visible h.2

lemma sag_bodyAngle : bodyAngleOf sag140Landmarks = 140 := by
  unfold bodyAngleOf
  rw [if_neg sag_not_both, if_pos sag_left_visible]
  have h := calculateAngle_dir (lmAt sag140Landmarks LEFT_SHOULDER)
    (lmAt sag140Landmarks LEFT_HIP) (lmAt sag140Landmarks LEFT_ANKLE)
    0.2 0.05 (7 * Real.pi / 9) 0 (by norm_num) (by norm_num)
    (by rw [sub_zero]; positivity) (by have := Real.pi_pos; rw [sub_zero]; linarith)
    rfl rfl
    (by show sagAnkle.x = sagHip.x + 0.05 * Real.cos 0
        rw [Real.cos_zero]; norm_num [sagAnkle, sagHip])
    (by show sagAnkle.y = sagHip.y + 0.05 * Real.sin 0
        rw [Real.sin_zero]; norm_num [sagAnkle, sagHip])
  rw [h, sub_zero]
  field_simp
  ring

lemma sag_kneeAngle : kneeAngleOf sag140Landmarks = 180 := by
  unfold kneeAngleOf
  rw [if_neg sag_not_both, if_pos sag_left_visible]
  have h := calculateAngle_dir (lmAt sag140Landmarks LEFT_HIP)
    (lmAt sag140Landmarks LEFT_KNEE) (lmAt sag140Landmarks LEFT_ANKLE)
    0.025 0.025 Real.pi 0 (by norm_num) (by norm_num)
    (by have := Real.pi_pos; rw [sub_zero]; linarith) (by rw [sub_zero])
    (by show sagHip.x = sagKnee.x + 0.025 * Real.cos Real.pi
        rw [Real.cos_pi]; norm_num [sagHip, sagKnee])
    (by show sagHip.y = sagKnee.y + 0.025 * Real.sin Real.pi
        rw [Real.sin_pi]; norm_num [sagHip, sagKnee])
    (by show sagAnkle.x = sagKnee.x + 0.025 * Real.cos 0
        rw [Real.cos_zero]; norm_num [sagAnkle, sagKnee])
    (by show sagAnkle.y = sagKnee.y + 0.025 * Real.sin 0
        rw [Real.sin_zero]; norm_num [sagAnkle, sagKnee])
  rw [h, sub_zero]
  field_simp

lemma sag_elbowAngle : elbowAngleOf sag140Landmarks = 180 := by
  unfold elbowAngleOf
  rw [if_neg sag_not_both, if_pos sag_left_visible]
  have h := calculateAngle_dir (lmAt sag140Landmarks LEFT_SHOULDER)
    (lmAt sag140Landmarks LEFT_ELBOW) (lmAt sag140Landmarks LEFT_WRIST)
    0.1 0.1 Real.pi 0 (by norm_num) (by norm_num)
    (by have := Real.pi_pos; rw [sub_zero]; linarith) (by rw [sub_zero])
    (by show sagShoulder.x = sagElbow.x + 0.1 * Real.cos Real.pi
        rw [Real.cos_pi]; simp only [sagShoulder, sagElbow]; ring)
    (by show sagShoulder.y = sagElbow.y + 0.1 * Real.sin Real.pi
        rw [Real.sin_pi]; simp only [sagShoulder, sagElbow]; ring)
    (by show sagWrist.x = sagElbow.x + 0.1 * Real.cos 0
        rw [Real.cos_zero]; simp only [sagWrist, sagElbow]; ring)
    (by show sagWrist.y = sagElbow.y + 0.1 * Real.sin 0
        rw [Real.sin_zero]; simp only [sagWrist, sagElbow]; ring)
  rw [h, sub_zero]
  field_simp

lemma sag_elbowShoulderDistance : elbowShoulderDistanceOf sag140Landmarks ≤ 0.15 := by
  unfold elbowShoulderDistanceOf
  rw [if_neg sag_not_both, if_pos sag_left_visible]
  show |sagElbow.x - sagShoulder.x| ≤ 0.15
  rw [show sagElbow.x - sagShoulder.x = (0.1 : ℝ) by
    show 0.6 + 0.2 * Real.cos (7 * Real.pi / 9) - (0.5 + 0.2 * Real.cos (7 * Real.pi / 9)) =
      (0.1 : ℝ)
    ring]
  rw [abs_of_pos (by norm_num)]
  norm_num

lemma sag_shoulderNoseDistance : shoulderNoseDistanceOf sag140Landmarks ≤ 0.15 := by
  unfold shoulderNoseDistanceOf
  rw [if_neg sag_not_both, if_pos sag_left_visible]
  show |sagShoulder.y - sagNose.y| ≤ 0.15
  rw [show sagShoulder.y - sagNose.y = (0 : ℝ) by
    show 0.55 + 0.2 * Real.sin (7 * Real.pi / 9) - (0.55 + 0.2 * Real.sin (7 * Real.pi / 9)) =
      (0 : ℝ)
    ring]
  rw [abs_zero]
  norm_num

lemma sag_levelness : shoulderHipLevelnessOf sag140Landmarks ≤ 0.15 := by
  unfold shoulderHipLevelnessOf
  rw [if_neg sag_not_both, if_pos sag_left_visible]
  show |sagShoulder.y - sagHip.y| ≤ 0.15
  rw [show sagShoulder.y - sagHip.y = 0.2 * Real.sin (7 * Real.pi / 9) by
    show 0.55 + 0.2 * Real.sin (7 * Real.pi / 9) - 0.55 = 0.2 * Real.sin (7 * Real.pi / 9)
    ring]
  rw [abs_of_nonneg (by linarith [sag_sin_nonneg])]
  linarith [sag_sin_le]

lemma sag_avgBodyY : 0.25 ≤ avgBodyYOf sag140Landmarks ∧ avgBodyYOf sag140Landmarks ≤ 0.75 := by
  unfold avgBodyYOf
  rw [if_neg sag_not_both, if_pos sag_left_visible]
  show 0.25 ≤ (sagShoulder.y + sagHip.y + sagAnkle.y) / 3 ∧
    (sagShoulder.y + sagHip.y + sagAnkle.y) / 3 ≤ 0.75
  have hy : sagShoulder.y + sagHip.y + sagAnkle.y =
      1.65 + 0.2 * Real.sin (7 * Real.pi / 9) := by
    show 0.55 + 0.2 * Real.sin (7 * Real.pi / 9) + 0.55 + 0.55 =
      1.65 + 0.2 * Real.sin (7 * Real.pi / 9)
    ring
  rw [hy]
  constructor <;> [linarith [sag_sin_nonneg]; linarith [sag_sin_le]]

lemma sag_colinearity : colinearityScoreOf sag140Landmarks ≤ 0.15 := by
  unfold colinearityScoreOf
  rw [if_neg sag_not_both, if_pos sag_left_visible]
  show calculateColinearity sagShoulder sagHip sagAnkle ≤ 0.15
  unfold calculateColinearity
  simp only []
  have hq0 := sag_sin_nonneg
  have hq7 := sag_sin_le
  have hp := sag_cos_le
  have hcross : |(sagHip.x - sagShoulder.x) * (sagAnkle.y - sagHip.y) -
      (sagHip.y - sagShoulder.y) * (sagAnkle.x - sagHip.x)| ≤ 0.007 := by
    rw [show (sagHip.x - sagShoulder.x) * (sagAnkle.y - sagHip.y) -
        (sagHip.y - sagShoulder.y) * (sagAnkle.x - sagHip.x) =
        0.01 * Real.sin (7 * Real.pi / 9) by
      show (0.5 - (0.5 + 0.2 * Real.cos (7 * Real.pi / 9))) * (0.55 - 0.55) -
        (0.55 - (0.55 + 0.2 * Real.sin (7 * Real.pi / 9))) * (0.55 - 0.5) =
        0.01 * Real.sin (7 * Real.pi / 9)
      ring]
    rw [abs_of_nonneg (by linarith)]
    linarith
  have hdx : sagAnkle.x - sagShoulder.x = 0.05 - 0.2 * Real.cos (7 * Real.pi / 9) := by
    show 0.55 - (0.5 + 0.2 * Real.cos (7 * Real.pi / 9)) =
      0.05 - 0.2 * Real.cos (7 * Real.pi / 9)
    ring
  have hdxge : (0.19 : ℝ) ≤ sagAnkle.x - sagShoulder.x := by
    rw [hdx]; linarith
  have hdist : (0.19 : ℝ) ≤
      Real.sqrt ((sagAnkle.x - sagShoulder.x) ^ 2 + (sagAnkle.y - sagShoulder.y) ^ 2) := by
    have h1 : (0.19 : ℝ) = Real.sqrt (0.19 ^ 2) := by
      rw [Real.sqrt_sq (by norm_num)]
    rw [h1]
    apply Real.sqrt_le_sqrt
    nlinarith [sq_nonneg (sagAnkle.y - sagShoulder.y)]
  have hdistpos : (0 : ℝ) <
      Real.sqrt ((sagAnkle.x - sagShoulder.x) ^ 2 + (sagAnkle.y - sagShoulder.y) ^ 2) := by
    linarith
  rw [if_neg hdistpos.ne']
  have hfrac : |(sagHip.x - sagShoulder.x) * (sagAnkle.y - sagHip.y) -
      (sagHip.y - sagShoulder.y) * (sagAnkle.x - sagHip.x)| /
      Real.sqrt ((sagAnkle.x - sagShoulder.x) ^ 2 + (sagAnkle.y - sagShoulder.y) ^ 2) ≤
      0.007 / 0.19 :=
    div_le_div₀ (by norm_num) hcross (by norm_num) hdist
  calc min 1 (|(sagHip.x - sagShoulder.x) * (sagAnkle.y - sagHip.y) -
      (sagHip.y - sagShoulder.y) * (sagAnkle.x - sagHip.x)| /
      Real.sqrt ((sagAnkle.x - sagShoulder.x) ^ 2 + (sagAnkle.y - sagShoulder.y) ^ 2) * 2) ≤
      |(sagHip.x - sagShoulder.x) * (sagAnkle.y - sagHip.y) -
      (sagHip.y - sagShoulder.y) * (sagAnkle.x - sagHip.x)| /
      Real.sqrt ((sagAnkle.x - sagShoulder.x) ^ 2 + (sagAnkle.y - sagShoulder.y) ^ 2) * 2 :=
      min_le_right _ _
    _ ≤ 0.007 / 0.19 * 2 := by linarith
    _ ≤ 0.15 := by norm_num

/-! ## Scorer evaluation under ideal-but-sagging measures (C3) -/

lemma colinearityCheck_ideal (x : ℝ) (h : x ≤ 0.15) : colinearityCheck x = (0, []) := by
  unfold colinearityCheck
  rw [if_neg (not_lt.mpr (by linarith)), if_neg (not_lt.mpr h)]

lemma alignmentCheck_140 : alignmentCheck 140 = (35, ["Lift your hips higher"]) := by
  unfold alignmentCheck
  rw [if_pos (by norm_num)]

lemma kneeCheck_ideal (x : ℝ) (h : 170 ≤ x) : kneeCheck x = (0, []) := by
  unfold kneeCheck
  rw [if_neg (not_lt.mpr (by linarith)), if_neg (not_lt.mpr h)]

lemma armStyleCheck_ideal (x : ℝ) (h : x < 130 ∨ 145 < x) : armStyleCheck x = (0, []) := by
  unfold armStyleCheck
  rw [if_neg]
  rintro ⟨h1, h2⟩
  rcases h with h | h
  · exact h1 h
  · exact h2 h

lemma armPlacementCheck_ideal (x : ℝ) (h : x ≤ 0.15) : armPlacementCheck x = (0, []) := by
  unfold armPlacementCheck
  rw [if_neg (not_lt.mpr h)]

lemma headCheck_ideal (x : ℝ) (h : x ≤ 0.15) : headCheck x = (0, []) := by
  unfold headCheck
  rw [if_neg (not_lt.mpr h)]

lemma levelnessCheck_ideal (x : ℝ) (h : x ≤ 0.15) : levelnessCheck x = (0, []) := by
  unfold levelnessCheck
  rw [if_neg (not_lt.mpr h)]

lemma framingCheck_ideal (y : ℝ) (h1 : 0.25 ≤ y) (h2 : y ≤ 0.75) : framingCheck y = (0, []) := by
  unfold framingCheck
  rw [if_neg]
  push_neg
  exact ⟨h1, h2⟩

/-- Scoring a body angle of exactly 140 with every other criterion ideal:
only the alignment penalty applies, leaving confidence 65 and a single
feedback entry, so the final judgment `65 >= 60 && 1 <= 3` passes and the
scorer reports a valid plank with the positive prefix message. -/
lemma scorePlank_sag (colin bodyAngle kneeAngle elbowAngle d1 d2 d3 y : ℝ)
    (hc : colin ≤ 0.15) (hb : bodyAngle = 140) (hk : 170 ≤ kneeAngle)
    (he : elbowAngle < 130 ∨ 145 < elbowAngle) (hd1 : d1 ≤ 0.15) (hd2 : d2 ≤ 0.15)
    (hd3 : d3 ≤ 0.15) (hy1 : 0.25 ≤ y) (hy2 : y ≤ 0.75) :
    scorePlank colin bodyAngle kneeAngle elbowAngle d1 d2 d3 y =
      (true, 65, ["Plank detected - maintain form", "Lift your hips higher"]) := by
  unfold scorePlank
  rw [colinearityCheck_ideal _ hc, hb, alignmentCheck_140, kneeCheck_ideal _ hk,
    armStyleCheck_ideal _ he, armPlacementCheck_ideal _ hd1, headCheck_ideal _ hd2,
    levelnessCheck_ideal _ hd3, framingCheck_ideal _ hy1 hy2]
  norm_num [positiveFeedback]

/-- Any landmark set whose measured body angle is exactly 140 degrees while
every other criterion is ideal is judged a valid plank with confidence 65 and
feedback containing the hip message. -/
lemma detectPlank_sag140_general (lms : List Landmark)
    (hvis : areLandmarksVisible lms 0.3) (hb : bodyAngleOf lms = 140)
    (hc : colinearityScoreOf lms ≤ 0.15) (hk : 170 ≤ kneeAngleOf lms)
    (he : elbowAngleOf lms < 130 ∨ 145 < elbowAngleOf lms)
    (hd1 : elbowShoulderDistanceOf lms ≤ 0.15) (hd2 : shoulderNoseDistanceOf lms ≤ 0.15)
    (hd3 : shoulderHipLevelnessOf lms ≤ 0.15) (hy1 : 0.25 ≤ avgBodyYOf lms)
    (hy2 : avgBodyYOf lms ≤ 0.75) :
    detectPlankPosition lms =
      { isPlank := true, confidence := 65,
        feedback := ["Plank detected - maintain form", "Lift your hips higher"],
        landmarks := some lms } := by
  unfold detectPlankPosition
  rw [if_neg (not_not_intro hvis),
    scorePlank_sag _ _ _ _ _ _ _ _ hc hb hk he hd1 hd2 hd3 hy1 hy2]
  norm_num

/-- C3 (amended): for every landmark set whose shoulder-hip-ankle angle is
exactly 140 degrees (hips sagging) and whose other criteria are all ideal,
`detectPlankPosition` does apply the hip penalty and emits the hip-related
feedback "Lift your hips higher", but under the final judgment rule
`isValid = confidence >= 60 AND feedback.length <= 3` the result is
`isValid = true` with confidence 65 (100 - 35), not `isValid = false`: a
single sagging-hips defect does not push confidence below 60 and produces
only one feedback entry. -/
theorem C3_sag140_amended (lms : List Landmark)
    (hvis : areLandmarksVisible lms 0.3) (hb : bodyAngleOf lms = 140)
    (hc : colinearityScoreOf lms ≤ 0.15) (hk : 170 ≤ kneeAngleOf lms)
    (he : elbowAngleOf lms < 130 ∨ 145 < elbowAngleOf lms)
    (hd1 : elbowShoulderDistanceOf lms ≤ 0.15) (hd2 : shoulderNoseDistanceOf lms ≤ 0.15)
    (hd3 : shoulderHipLevelnessOf lms ≤ 0.15) (hy1 : 0.25 ≤ avgBodyYOf lms)
    (hy2 : avgBodyYOf lms ≤ 0.75) :
    "Lift your hips higher" ∈ (detectPlankPosition lms).feedback ∧
    (detectPlankPosition lms).isPlank = true ∧
    (detectPlankPosition lms).confidence = 65 := by
  rw [detectPlank_sag140_general lms hvis hb hc hk he hd1 hd2 hd3 hy1 hy2]
  exact ⟨by simp, rfl, rfl⟩

/-- Counterexample to C3 as stated: `sag140Landmarks` has body angle exactly
140 degrees and every other criterion ideal, yet `detectPlankPosition`
returns `isPlank = true` — not the `isValid = false` the claim requires. -/
theorem C3_sag140_counterexample :
    bodyAngleOf sag140Landmarks = 140 ∧
    colinearityScoreOf sag140Landmarks ≤ 0.15 ∧
    170 ≤ kneeAngleOf sag140Landmarks ∧
    (elbowAngleOf sag140Landmarks < 130 ∨ 145 < elbowAngleOf sag140Landmarks) ∧
    elbowShoulderDistanceOf sag140Landmarks ≤ 0.15 ∧
    shoulderNoseDistanceOf sag140Landmarks ≤ 0.15 ∧
    shoulderHipLevelnessOf sag140Landmarks ≤ 0.15 ∧
    0.25 ≤ avgBodyYOf sag140Landmarks ∧ avgBodyYOf sag140Landmarks ≤ 0.75 ∧
    "Lift your hips higher" ∈ (detectPlankPosition sag140Landmarks).feedback ∧
    (detectPlankPosition sag140Landmarks).isPlank = true := by
  have helb : elbowAngleOf sag140Landmarks < 130 ∨ 145 < elbowAngleOf sag140Landmarks :=
    Or.inr (by rw [sag_elbowAngle]; norm_num)
  have hres := detectPlank_sag140_general sag140Landmarks sag_visible sag_bodyAngle
    sag_colinearity (by rw [sag_kneeAngle]; norm_num) helb sag_elbowShoulderDistance
    sag_shoulderNoseDistance sag_levelness sag_avgBodyY.1 sag_avgBodyY.2
  refine ⟨sag_bodyAngle, sag_colinearity, by rw [sag_kneeAngle]; norm_num, helb,
    sag_elbowShoulderDistance, sag_shoulderNoseDistance, sag_levelness,
    sag_avgBodyY.1, sag_avgBodyY.2, ?_, ?_⟩
  · rw [hres]; simp
  · rw [hres]

/-- Witness for C3 (amended) at the concrete 140-degree landmark set. -/
theorem C3_sag140_witness :
    "Lift your hips higher" ∈ (detectPlankPosition sag140Landmarks).feedback ∧
    (detectPlankPosition sag140Landmarks).isPlank = true ∧
    (detectPlankPosition sag140Landmarks).confidence = 65 :=
  C3_sag140_amended sag140Landmarks sag_visible sag_bodyAngle sag_colinearity
    (by rw [sag_kneeAngle]; norm_num)
    (Or.inr (by rw [sag_elbowAngle]; norm_num))
    sag_elbowShoulderDistance sag_shoulderNoseDistance sag_levelness
    sag_avgBodyY.1 sag_avgBodyY.2

end Plank
